import Mathlib

/-!
# Verification of `baseline_generate.py` (GEC-Promptathon, FC-Prompthon-햄버거)

Shallow embedding of `src/projects/FC-Prompthon-햄버거/code/baseline_generate.py`:
a batch job that reads a CSV with an `err_sentence` column, issues two sequential
chat-completion calls per row (specialist pass, then reviewer pass), and collects
`(id, err_sentence, cor_sentence)` output rows.

Modelling choices:
* CSV cell values are modelled as `String`s, so Python's `str(...)` coercion is the
  identity on them.
* The remote client (`client.chat.completions.create`) is a function from a chat
  request to `Except Unit Response`; `.error` stands for any raised exception
  (network, auth, rate limit, ...).  Accessing `resp.choices[0].message.content.strip()`
  can itself raise (empty `choices` list → `IndexError`, `content is None` →
  `AttributeError`); both land in the same `except` block, which the embedding
  reflects in `getFirstContent`.
* Python's `str.strip()` is modelled by `strip`, which drops leading and trailing
  whitespace characters.
* Python truthiness of `corrected_1` (line 89: `corrected_1 if corrected_1 else text`)
  is the test `corrected_1 ≠ ""` — `corrected_1` is always a trimmed string there.
* `main` is modelled from the `err_sentence`-column check onward; argument parsing,
  CSV file I/O and progress display are external collaborators.  The model also
  returns the list of chat requests that were issued, so that "no remote call is
  made" is expressible as an empty request trace.
-/

/-- One chat message: `{"role": ..., "content": ...}`. -/
structure ChatMessage where
  role : String
  content : String
deriving DecidableEq, Repr

/-- A chat-completion request as built by `client.chat.completions.create(...)`:
model name, message list, and the (fixed) temperature `0.0`, modelled as `0`. -/
structure ChatRequest where
  model : String
  messages : List ChatMessage
  temperature : Int
deriving DecidableEq, Repr

/-- Message object of one completion choice; `content` is optional
(the OpenAI client types it as `Optional[str]`). -/
structure ChoiceMessage where
  content : Option String
deriving DecidableEq, Repr

/-- One element of `resp.choices`. -/
structure Choice where
  message : ChoiceMessage
deriving DecidableEq, Repr

/-- A chat-completion response: the list `resp.choices`. -/
structure Response where
  choices : List Choice
deriving DecidableEq, Repr

/-- The remote client: every call either returns a response or raises. -/
def Client : Type := ChatRequest → Except Unit Response

/-- System message of API call 1 (the specialist pass), line 65 of the source. -/
def specialistSystem : String :=
  "당신은 한국어 문장 교정 전문가입니다. 맞춤법/띄어쓰기/문장부호/문법을 자연스럽게 교정하세요. 반드시 불필한 설명 없이 교정된 문장만 출력하세요."

/-- System message of API call 2 (the reviewer pass), line 78 of the source. -/
def reviewerSystem : String :=
  "당신은 1차 교정본을 검토하는 2차 검토자입니다. 명백한 오류가 아니라면 절대 수정하지 마세요. 설명 없이 교정된 문장만 출력하세요."

/-- Modelled from the spec: the templates `specialist_prompt` and `reviewer_prompt`
are imported from `prompts.py`, which is not in the repository.  Per the spec each
is a fixed string template with exactly one substitution slot `text`; we model the
fixed part as an (arbitrary but fixed) prefix and suffix around the slot. -/
def specialistFormat (text : String) : String :=
  "<specialist template prefix>" ++ text ++ "<specialist template suffix>"

/-- Modelled from the spec: `reviewer_prompt.format(text=...)`, the second fixed
template from the missing `prompts.py`, with its single `text` slot filled. -/
def reviewerFormat (text : String) : String :=
  "<reviewer template prefix>" ++ text ++ "<reviewer template suffix>"

/-- The request of API call 1 (source lines 62-69). -/
def mkReq1 (model prompt : String) : ChatRequest :=
  ⟨model, [⟨"system", specialistSystem⟩, ⟨"user", prompt⟩], 0⟩

/-- The request of API call 2 (source lines 75-82). -/
def mkReq2 (model prompt : String) : ChatRequest :=
  ⟨model, [⟨"system", reviewerSystem⟩, ⟨"user", prompt⟩], 0⟩

/-- Model of Python's `str.strip()` (no arguments): remove leading and trailing
whitespace. -/
def strip (s : String) : String :=
  ⟨((s.data.dropWhile Char.isWhitespace).reverse.dropWhile Char.isWhitespace).reverse⟩

/-- Evaluation of `resp.choices[0].message.content`: `none` when the access raises
(`choices` empty, or `content` is `None` so that `.strip()` would raise). -/
def getFirstContent (resp : Response) : Option String :=
  match resp.choices with
  | [] => none
  | c :: _ => c.message.content

/-- Body of the per-row `try`/`except` (source lines 56-89).  Returns the list of
chat requests issued for this row together with the value appended to
`cor_sentences`.  `corrected_1`/`corrected_2` start as `""`; any failure falls to
the `except` branch, which appends `corrected_1 if corrected_1 else text`. -/
def processRow (client : Client) (model text : String) :
    List ChatRequest × String :=
  let req1 := mkReq1 model (specialistFormat text)
  match client req1 with
  | .error _ => ([req1], text)
  | .ok resp1 =>
    match getFirstContent resp1 with
    | none => ([req1], text)
    | some raw1 =>
      let corrected_1 := strip raw1
      let req2 := mkReq2 model (reviewerFormat corrected_1)
      match client req2 with
      | .error _ => ([req1, req2], if corrected_1 ≠ "" then corrected_1 else text)
      | .ok resp2 =>
        match getFirstContent resp2 with
        | none => ([req1, req2], if corrected_1 ≠ "" then corrected_1 else text)
        | some raw2 => ([req1, req2], strip raw2)

/-- One output row of the final `DataFrame` (source lines 93-97). -/
structure OutputRow where
  id : String
  err_sentence : String
  cor_sentence : String
deriving DecidableEq, Repr

/-- The per-sentence loop (source lines 50-89) over the paired `id` and
`err_sentence` columns; accumulates the issued requests and the output rows. -/
def runLoop (client : Client) (model : String) :
    List (String × String) → List ChatRequest × List OutputRow
  | [] => ([], [])
  | (rowId, err) :: rest =>
    let text := err
    let pr := processRow client model text
    let tail := runLoop client model rest
    (pr.1 ++ tail.1, ⟨rowId, text, pr.2⟩ :: tail.2)

/-- The input table as read by `pd.read_csv`: each column is present or absent;
cells are strings. -/
structure InputDF where
  ids : Option (List String)
  errs : Option (List String)

/-- A data frame has all present columns of equal length. -/
def InputDF.wf (df : InputDF) : Prop :=
  ∀ l e, df.ids = some l → df.errs = some e → l.length = e.length

/-- Placeholder ids `['temp_id_0', 'temp_id_1', ...]` synthesized at source line 32
when the `id` column is absent (`len(df)` is the number of rows). -/
def synthIds (n : Nat) : List String :=
  (List.range n).map (fun i => "temp_id_" ++ toString i)

/-- The effective `id` column after source lines 30-32: the table's own `id`
column when present, otherwise the synthesized placeholder ids. -/
def mainIds (df : InputDF) (errs : List String) : List String :=
  match df.ids with
  | some l => l
  | none => synthIds errs.length

/-- Model of `main` from the `err_sentence`-column check onward (source lines 27-97):
checks the `err_sentence` column, synthesizes `temp_id_<i>` ids when the `id`
column is absent, checks the `UPSTAGE_API_KEY` credential (`os.getenv` returns
`none` when unset; `if not api_key` also rejects the empty string), then runs the
loop.  Returns the issued-request trace and either a fatal error message or the
output rows. -/
def mainRun (apiKey : Option String) (df : InputDF) (client : Client)
    (model : String) : List ChatRequest × Except String (List OutputRow) :=
  match df.errs with
  | none => ([], .error "Input CSV must contain 'err_sentence' column")
  | some errs =>
    let ids := mainIds df errs
    match apiKey with
    | none => ([], .error "UPSTAGE_API_KEY not found in environment variables")
    | some k =>
      if k = "" then
        ([], .error "UPSTAGE_API_KEY not found in environment variables")
      else
        let r := runLoop client model (ids.zip errs)
        (r.1, .ok r.2)

/-- The output row built for one `(id, err_sentence)` input pair: id and text are
copied through, `cor_sentence` is the per-row result of the two-call pipeline. -/
def stepRow (client : Client) (model : String) (p : String × String) : OutputRow :=
  ⟨p.1, p.2, (processRow client model p.2).2⟩

/-- A client on which every call raises. -/
def allFailClient : Client := fun _ => Except.error ()

/-- A client for which the specialist call on text `"x"` (model `"m"`) succeeds
with whitespace-only content and every other call (the reviewer call included)
raises. -/
def wsThenFailClient : Client := fun req =>
  if req = mkReq1 "m" (specialistFormat "x") then Except.ok ⟨[⟨⟨some "   "⟩⟩]⟩
  else Except.error ()

/-- A client for which the specialist call on text `"x"` (model `"m"`) returns
content `" A "` and the matching reviewer call returns content `" B. "`. -/
def bothOkClient : Client := fun req =>
  if req = mkReq1 "m" (specialistFormat "x") then Except.ok ⟨[⟨⟨some " A "⟩⟩]⟩
  else if req = mkReq2 "m" (reviewerFormat "A") then Except.ok ⟨[⟨⟨some " B. "⟩⟩]⟩
  else Except.error ()

/-- A client for which the specialist call on text `"x"` (model `"m"`) returns
content `" A "` and the matching reviewer call returns whitespace-only content. -/
def reviewerBlankClient : Client := fun req =>
  if req = mkReq1 "m" (specialistFormat "x") then Except.ok ⟨[⟨⟨some " A "⟩⟩]⟩
  else if req = mkReq2 "m" (reviewerFormat "A") then Except.ok ⟨[⟨⟨some "  "⟩⟩]⟩
  else Except.error ()

lemma runLoop_snd (client : Client) (model : String) :
    ∀ ps : List (String × String),
      (runLoop client model ps).2 = ps.map (stepRow client model)
  | [] => rfl
  | (rowId, err) :: rest => by
    simp [runLoop, stepRow, runLoop_snd client model rest]

lemma runLoop_length (client : Client) (model : String)
    (ps : List (String × String)) :
    (runLoop client model ps).2.length = ps.length := by
  rw [runLoop_snd]; exact List.length_map ps (stepRow client model)

lemma runLoop_getElem? (client : Client) (model : String)
    (ps : List (String × String)) (i : Nat) :
    (runLoop client model ps).2[i]? = ps[i]?.map (stepRow client model) := by
  rw [runLoop_snd]; simp [List.getElem?_map]

lemma mainRun_ok (apiK : String) (df : InputDF) (client : Client)
    (model : String) (errs : List String)
    (herrs : df.errs = some errs) (hk : apiK ≠ "") :
    mainRun (some apiK) df client model =
      ((runLoop client model ((mainIds df errs).zip errs)).1,
       Except.ok (runLoop client model ((mainIds df errs).zip errs)).2) := by
  simp [mainRun, herrs, hk]

lemma mainIds_length (df : InputDF) (errs : List String)
    (hwf : df.wf) (herrs : df.errs = some errs) :
    (mainIds df errs).length = errs.length := by
  unfold mainIds
  cases hids : df.ids with
  | none => simp [synthIds]
  | some l => exact hwf l errs hids herrs

lemma zip_getElem?_of_len {α β : Type} (l1 : List α) (l2 : List β) (i : Nat)
    (hlen : l1.length = l2.length) (hi : i < l2.length) :
    (l1.zip l2)[i]? = some (l1.get ⟨i, by omega⟩, l2.get ⟨i, hi⟩) := by
  have hz : i < (l1.zip l2).length := by simp [List.length_zip]; omega
  rw [List.getElem?_eq_getElem hz]
  congr 1
  exact List.getElem_zip

lemma processRow_congr (cA cB : Client) (model t : String)
    (h1 : cA (mkReq1 model (specialistFormat t)) = cB (mkReq1 model (specialistFormat t)))
    (h2 : ∀ p, cA (mkReq2 model p) = cB (mkReq2 model p)) :
    processRow cA model t = processRow cB model t := by
  cases hcb : cB (mkReq1 model (specialistFormat t)) with
  | error e => simp [processRow, h1, hcb]
  | ok resp1 =>
    cases hg : getFirstContent resp1 with
    | none => simp [processRow, h1, hcb, hg]
    | some raw1 => simp [processRow, h1, hcb, hg, h2]

/-- C3: if the first (specialist) remote call fails, the emitted `cor_sentence`
is the row's original `err_sentence` text (`corrected_1` is still `""`, so the
`except` branch appends `text`). -/
theorem c3_first_call_fails (client : Client) (model text : String) (e : Unit)
    (h1 : client (mkReq1 model (specialistFormat text)) = Except.error e) :
    (processRow client model text).2 = text := by
  simp [processRow, h1]

theorem c3_witness : (processRow allFailClient "m" "x").2 = "x" :=
  c3_first_call_fails allFailClient "m" "x" () rfl

/-- C4: when both remote calls succeed (response content present in each), the
emitted `cor_sentence` is the stripped content of the first completion of the
second (reviewer) call's response. -/
theorem c4_both_succeed (client : Client) (model text : String)
    (resp1 : Response) (raw1 : String) (resp2 : Response) (raw2 : String)
    (h1 : client (mkReq1 model (specialistFormat text)) = Except.ok resp1)
    (hc1 : getFirstContent resp1 = some raw1)
    (h2 : client (mkReq2 model (reviewerFormat (strip raw1))) = Except.ok resp2)
    (hc2 : getFirstContent resp2 = some raw2) :
    (processRow client model text).2 = strip raw2 := by
  simp [processRow, h1, hc1, h2, hc2]

theorem c4_witness : (processRow bothOkClient "m" "x").2 = strip " B. " :=
  c4_both_succeed bothOkClient "m" "x" ⟨[⟨⟨some " A "⟩⟩]⟩ " A " ⟨[⟨⟨some " B. "⟩⟩]⟩ " B. "
    rfl rfl rfl rfl

/-- C2 as written is false: when the first call succeeds with content that strips
to `""` and the second call fails, the code emits the original text (Python's
`corrected_1 if corrected_1 else text`), not the stripped first-call content. -/
theorem c2_counterexample :
    wsThenFailClient (mkReq1 "m" (specialistFormat "x")) =
      Except.ok ⟨[⟨⟨some "   "⟩⟩]⟩ ∧
    wsThenFailClient (mkReq2 "m" (reviewerFormat (strip "   "))) = Except.error () ∧
    strip "   " = "" ∧
    (processRow wsThenFailClient "m" "x").2 = "x" ∧
    "x" ≠ "" :=
  ⟨rfl, rfl, by decide, by decide, by decide⟩

/-- C2 (amended): when the first call succeeds (content `raw1`) and the second
call fails, the emitted `cor_sentence` is the stripped first-call content if that
is non-empty, and otherwise the row's original text. -/
theorem c2_amended_fallback (client : Client) (model text : String)
    (resp1 : Response) (raw1 : String) (e : Unit)
    (h1 : client (mkReq1 model (specialistFormat text)) = Except.ok resp1)
    (hc1 : getFirstContent resp1 = some raw1)
    (h2 : client (mkReq2 model (reviewerFormat (strip raw1))) = Except.error e) :
    (processRow client model text).2 =
      if strip raw1 = "" then text else strip raw1 := by
  simp only [processRow, h1, hc1, h2]
  by_cases hc : strip raw1 = "" <;> simp [hc]

theorem c2_amended_fallback_witness :
    (processRow wsThenFailClient "m" "x").2 =
      if strip "   " = "" then "x" else strip "   " :=
  c2_amended_fallback wsThenFailClient "m" "x" ⟨[⟨⟨some "   "⟩⟩]⟩ "   " () rfl rfl rfl

/-- C10: when both calls succeed and the reviewer response's content strips to
the empty string, the emitted `cor_sentence` is the empty string — the
non-empty fallback of the `except` branch is not applied on the success path. -/
theorem c10_blank_reviewer_result (client : Client) (model text : String)
    (resp1 : Response) (raw1 : String) (resp2 : Response) (raw2 : String)
    (h1 : client (mkReq1 model (specialistFormat text)) = Except.ok resp1)
    (hc1 : getFirstContent resp1 = some raw1)
    (h2 : client (mkReq2 model (reviewerFormat (strip raw1))) = Except.ok resp2)
    (hc2 : getFirstContent resp2 = some raw2)
    (hblank : strip raw2 = "") :
    (processRow client model text).2 = "" := by
  simp [processRow, h1, hc1, h2, hc2, hblank]

theorem c10_witness : (processRow reviewerBlankClient "m" "x").2 = "" :=
  c10_blank_reviewer_result reviewerBlankClient "m" "x" ⟨[⟨⟨some " A "⟩⟩]⟩ " A "
    ⟨[⟨⟨some "  "⟩⟩]⟩ "  " rfl rfl rfl rfl (by decide)

lemma synthIds_getElem? (n i : Nat) (h : i < n) :
    (synthIds n)[i]? = some ("temp_id_" ++ toString i) := by
  simp [synthIds, List.getElem?_range, h]

lemma runLoop_id_at (client : Client) (model : String) (ids errs : List String)
    (hlen : ids.length = errs.length) (i : Nat) (hi : i < errs.length) :
    (runLoop client model (ids.zip errs)).2[i]?.map OutputRow.id = ids[i]? := by
  rw [runLoop_getElem?, zip_getElem?_of_len _ _ i hlen hi,
    List.getElem?_eq_getElem (show i < ids.length by omega)]
  simp [stepRow]

/-- C1: for every input table with a valid `err_sentence` column (and a valid
credential), the run succeeds and the output has exactly one row per input row,
in input order: the `i`-th output row carries the `i`-th input row's
`err_sentence` and a `cor_sentence` computed from that same row's text — for
every client behaviour, i.e. whether the row's remote calls succeed or fail. -/
theorem c1_row_count_and_order (client : Client) (model apiK : String)
    (df : InputDF) (errs : List String)
    (herrs : df.errs = some errs) (hwf : df.wf) (hk : apiK ≠ "") :
    ∃ out, (mainRun (some apiK) df client model).2 = Except.ok out ∧
      out.length = errs.length ∧
      ∀ i, i < errs.length →
        out[i]?.map OutputRow.err_sentence = errs[i]? ∧
        out[i]?.map OutputRow.cor_sentence =
          errs[i]?.map (fun t => (processRow client model t).2) := by
  refine ⟨(runLoop client model ((mainIds df errs).zip errs)).2, ?_, ?_, ?_⟩
  · rw [mainRun_ok apiK df client model errs herrs hk]
  · rw [runLoop_length, List.length_zip, mainIds_length df errs hwf herrs,
      Nat.min_self]
  · intro i hi
    have hlen := mainIds_length df errs hwf herrs
    rw [runLoop_getElem?, zip_getElem?_of_len _ _ i hlen hi,
      List.getElem?_eq_getElem hi]
    simp [stepRow]

theorem c1_witness :
    ∃ out, (mainRun (some "key") ⟨some ["1"], some ["x"]⟩ allFailClient "m").2 =
        Except.ok out ∧
      out.length = ["x"].length ∧
      ∀ i, i < ["x"].length →
        out[i]?.map OutputRow.err_sentence = ["x"][i]? ∧
        out[i]?.map OutputRow.cor_sentence =
          ["x"][i]?.map (fun t => (processRow allFailClient "m" t).2) :=
  c1_row_count_and_order allFailClient "m" "key" ⟨some ["1"], some ["x"]⟩ ["x"] rfl
    (by intro l e hl he; injection hl with h1; injection he with h2
        subst h1; subst h2; rfl)
    (by decide)

/-- C5: a remote-call failure never aborts the run and never drops a row: for
every client behaviour (including one on which any or all calls raise), the loop
output has one row per input row and the `i`-th row is still present, with its
own id, its own text, and the per-row (possibly fallback) `cor_sentence`. -/
theorem c5_row_never_dropped (client : Client) (model : String)
    (ps : List (String × String)) (i : Nat) (hi : i < ps.length) :
    (runLoop client model ps).2.length = ps.length ∧
    (runLoop client model ps).2[i]? =
      some ⟨(ps.get ⟨i, hi⟩).1, (ps.get ⟨i, hi⟩).2,
            (processRow client model (ps.get ⟨i, hi⟩).2).2⟩ := by
  refine ⟨runLoop_length client model ps, ?_⟩
  rw [runLoop_getElem?, List.getElem?_eq_getElem hi]
  simp [stepRow]

theorem c5_witness :
    (runLoop allFailClient "m" [("1", "x")]).2.length = [("1", "x")].length ∧
    (runLoop allFailClient "m" [("1", "x")]).2[0]? =
      some ⟨([("1", "x")].get ⟨0, by decide⟩).1, ([("1", "x")].get ⟨0, by decide⟩).2,
            (processRow allFailClient "m" (([("1", "x")].get ⟨0, by decide⟩).2)).2⟩ :=
  c5_row_never_dropped allFailClient "m" [("1", "x")] 0 (by decide)

/-- C6: if the input table lacks an `err_sentence` column, or the API-key
credential is unset (or empty), the run aborts with an error message, the
request trace is empty (no remote call is made), and no output is produced. -/
theorem c6_fatal_before_any_call (apiKey : Option String) (df : InputDF)
    (client : Client) (model : String)
    (h : df.errs = none ∨ apiKey = none ∨ apiKey = some "") :
    (mainRun apiKey df client model).1 = [] ∧
    ∃ msg, (mainRun apiKey df client model).2 = Except.error msg := by
  rcases h with h | h | h
  · simp [mainRun, h]
  · cases he : df.errs <;> simp [mainRun, h, he]
  · cases he : df.errs <;> simp [mainRun, h, he]

theorem c6_witness :
    (mainRun (some "key") ⟨none, none⟩ allFailClient "m").1 = [] ∧
    ∃ msg, (mainRun (some "key") ⟨none, none⟩ allFailClient "m").2 =
      Except.error msg :=
  c6_fatal_before_any_call (some "key") ⟨none, none⟩ allFailClient "m" (Or.inl rfl)

/-- C7: the `i`-th output row's id equals the `i`-th entry of the input `id`
column when that column is present, and equals `temp_id_<i>` (zero-based row
index) when it is absent. -/
theorem c7_id_passthrough_or_synthesized (client : Client) (model apiK : String)
    (df : InputDF) (errs : List String)
    (herrs : df.errs = some errs) (hwf : df.wf) (hk : apiK ≠ "")
    (i : Nat) (hi : i < errs.length) :
    ∃ out, (mainRun (some apiK) df client model).2 = Except.ok out ∧
      (∀ l, df.ids = some l → out[i]?.map OutputRow.id = l[i]?) ∧
      (df.ids = none → out[i]?.map OutputRow.id = some ("temp_id_" ++ toString i)) := by
  have hlen := mainIds_length df errs hwf herrs
  refine ⟨(runLoop client model ((mainIds df errs).zip errs)).2, ?_, ?_, ?_⟩
  · rw [mainRun_ok apiK df client model errs herrs hk]
  · intro l hl
    have hm : mainIds df errs = l := by simp [mainIds, hl]
    rw [runLoop_id_at client model _ errs hlen i hi, hm]
  · intro hl
    have hm : mainIds df errs = synthIds errs.length := by simp [mainIds, hl]
    rw [runLoop_id_at client model _ errs hlen i hi, hm, synthIds_getElem? _ _ hi]

theorem c7_witness :
    ∃ out, (mainRun (some "key") ⟨some ["7"], some ["x"]⟩ allFailClient "m").2 =
        Except.ok out ∧
      (∀ l, (InputDF.mk (some ["7"]) (some ["x"])).ids = some l →
        out[0]?.map OutputRow.id = l[0]?) ∧
      ((InputDF.mk (some ["7"]) (some ["x"])).ids = none →
        out[0]?.map OutputRow.id = some ("temp_id_" ++ toString 0)) :=
  c7_id_passthrough_or_synthesized allFailClient "m" "key"
    ⟨some ["7"], some ["x"]⟩ ["x"] rfl
    (by intro l e hl he; injection hl with h1; injection he with h2
        subst h1; subst h2; rfl)
    (by decide) 0 (by decide)

/-- C8: the `i`-th output row's `err_sentence` equals the `i`-th input row's
`err_sentence`, copied through unchanged. -/
theorem c8_err_sentence_copied (client : Client) (model apiK : String)
    (df : InputDF) (errs : List String)
    (herrs : df.errs = some errs) (hwf : df.wf) (hk : apiK ≠ "")
    (i : Nat) (hi : i < errs.length) :
    ∃ out, (mainRun (some apiK) df client model).2 = Except.ok out ∧
      out[i]?.map OutputRow.err_sentence = errs[i]? := by
  refine ⟨(runLoop client model ((mainIds df errs).zip errs)).2, ?_, ?_⟩
  · rw [mainRun_ok apiK df client model errs herrs hk]
  · have hlen := mainIds_length df errs hwf herrs
    rw [runLoop_getElem?, zip_getElem?_of_len _ _ i hlen hi,
      List.getElem?_eq_getElem hi]
    simp [stepRow]

theorem c8_witness :
    ∃ out, (mainRun (some "key") ⟨none, some ["x"]⟩ allFailClient "m").2 =
        Except.ok out ∧
      out[0]?.map OutputRow.err_sentence = ["x"][0]? :=
  c8_err_sentence_copied allFailClient "m" "key" ⟨none, some ["x"]⟩ ["x"] rfl
    (by intro l e hl _; exact Option.noConfusion hl)
    (by decide) 0 (by decide)

/-- C9: each row's outcome is a deterministic function of that row's own input
fields and that row's own two remote calls only: if two runs agree on row `i`'s
input pair, on the specialist call for row `i`'s text, and on the reviewer-stage
behaviour, then row `i`'s output row is identical — whatever the rest of the
two tables contain and however the client behaves on other rows' calls. -/
theorem c9_row_isolation_and_determinism (cA cB : Client) (model : String)
    (pA pB : List (String × String)) (i : Nat)
    (hA : i < pA.length) (hB : i < pB.length)
    (hrow : pA[i] = pB[i])
    (h1 : cA (mkReq1 model (specialistFormat (pA[i]).2)) =
          cB (mkReq1 model (specialistFormat (pA[i]).2)))
    (h2 : ∀ p, cA (mkReq2 model p) = cB (mkReq2 model p)) :
    (runLoop cA model pA).2[i]? = (runLoop cB model pB).2[i]? := by
  rw [runLoop_getElem?, runLoop_getElem?,
    List.getElem?_eq_getElem hA, List.getElem?_eq_getElem hB]
  have hcongr := processRow_congr cA cB model (pA[i]).2 h1 h2
  simp [stepRow, ← hrow, hcongr]

theorem c9_witness :
    (runLoop allFailClient "m" [("1", "y")]).2[0]? =
      (runLoop allFailClient "m" [("1", "y"), ("2", "x")]).2[0]? :=
  c9_row_isolation_and_determinism allFailClient allFailClient "m"
    [("1", "y")] [("1", "y"), ("2", "x")] 0 (by decide) (by decide) rfl rfl
    (fun _ => rfl)
